import Mathlib

/-!
Shallow embedding of `src/data/download_discharge_data_cli.py`.

The script builds CDS API request dictionaries parameterised by a year,
checks whether the destination file already exists, and otherwise delegates
a single blocking retrieval call to the external `cdsapi` client.  We model:

* request dictionaries as association lists `List (String × Value)` written
  in the source's literal order, with Python-dict lookup semantics
  (`dictLookup`);
* the local filesystem as a list of `(name, content)` pairs — `os.path.exists`
  inspects only the names, never the contents;
* the external client as an oracle `ClientBehavior`: either it raises
  (`failure = some msg`, no file written) or it succeeds and writes
  `content` to the destination filename — this is the contract the spec
  assigns to the collaborator;
* an execution of `retrievefull` / `retrieve` / `main` as a record of the
  delegated calls made, the resulting filesystem, the lines printed, and the
  uncaught exception if any.
-/

/-- A value of the Python request dictionary: a string, a list of strings,
or a list of integers (the bounding box). -/
inductive Value where
  | str : String → Value
  | strList : List String → Value
  | intList : List Int → Value
  deriving DecidableEq, Repr

/-- Lookup in a Python dictionary modelled as an association list
(keys are distinct in every dictionary of this program). -/
def dictLookup (d : List (String × Value)) (k : String) : Option Value :=
  match d with
  | [] => none
  | (a, v) :: rest => if k = a then some v else dictLookup rest k

/-- The request dictionary literal of `retrievefull` (source lines 13-42),
entries in source order.  `str(y)` is `toString y`. -/
def fullRequest (y : Int) : List (String × Value) :=
  [("system_version", Value.str "version_4_0"),
   ("variable", Value.str "river_discharge_in_the_last_6_hours"),
   ("model_levels", Value.str "surface_level"),
   ("hyear", Value.str (toString y)),
   ("hmonth", Value.strList
      ["01", "02", "03", "04", "05", "06", "07", "08", "09", "10", "11", "12"]),
   ("hday", Value.strList
      ["01", "02", "03", "04", "05", "06", "07", "08", "09", "10", "11", "12",
       "13", "14", "15", "16", "17", "18", "19", "20", "21", "22", "23", "24",
       "25", "26", "27", "28", "29", "30", "31"]),
   ("time", Value.strList ["00:00", "06:00", "12:00", "18:00"]),
   ("format", Value.str "netcdf")]

/-- The request dictionary literal of `retrieve` (source lines 50-83),
entries in source order. -/
def croppedRequest (y : Int) : List (String × Value) :=
  [("format", Value.str "netcdf"),
   ("system_version", Value.str "version_4_0"),
   ("variable", Value.str "river_discharge_in_the_last_6_hours"),
   ("model_levels", Value.str "surface_level"),
   ("hyear", Value.str (toString y)),
   ("hmonth", Value.strList
      ["01", "02", "03", "04", "05", "06", "07", "08", "09", "10", "11", "12"]),
   ("hday", Value.strList
      ["01", "02", "03", "04", "05", "06", "07", "08", "09", "10", "11", "12",
       "13", "14", "15", "16", "17", "18", "19", "20", "21", "22", "23", "24",
       "25", "26", "27", "28", "29", "30", "31"]),
   ("time", Value.strList ["00:00", "06:00", "12:00", "18:00"]),
   ("area", Value.intList [54, 14, 49, 20])]

/-- One delegated call `c.retrieve(dataset, request, filename)`. -/
structure Call where
  dataset : String
  request : List (String × Value)
  filename : String
  deriving DecidableEq, Repr

/-- The names of the files present on disk (`os.path.exists` sees only these,
never the contents). -/
def fileNames (fs : List (String × String)) : List String :=
  fs.map Prod.fst

/-- Behaviour of the external `cdsapi` client for one call: either it raises
an exception carrying `msg` (`failure = some msg`) and writes nothing, or it
succeeds and writes `content` to the destination filename. -/
structure ClientBehavior where
  failure : Option String
  content : String
  deriving DecidableEq, Repr

/-- Observable outcome of one retrieval function: the filesystem afterwards,
the delegated calls made (in order), and the uncaught client exception if
one was raised. -/
structure RunResult where
  files : List (String × String)
  calls : List Call
  error : Option String
  deriving DecidableEq, Repr

/-- `f'discharge_{y}_full.nc.zip'` (source line 9). -/
def fullFilename (y : Int) : String :=
  "discharge_" ++ toString y ++ "_full.nc.zip"

/-- `f'discharge_{y}.nc.zip'` (source line 46). -/
def croppedFilename (y : Int) : String :=
  "discharge_" ++ toString y ++ ".nc.zip"

/-- `retrievefull(y)` (source lines 8-43): if the destination file exists, do
nothing; otherwise make exactly one delegated call with dataset
`efas-historical`, the full request dictionary and the full filename.  On
client success the file appears on disk; on client failure the exception
propagates (no local catch, no retry). -/
def retrievefull (y : Int) (fs : List (String × String)) (cb : ClientBehavior) :
    RunResult :=
  if (fileNames fs).contains (fullFilename y) then ⟨fs, [], none⟩
  else
    ⟨(match cb.failure with
      | none => (fullFilename y, cb.content) :: fs
      | some _ => fs),
     [⟨"efas-historical", fullRequest y, fullFilename y⟩],
     cb.failure⟩

/-- `retrieve(y)` (source lines 45-84), the cropped path (dead code, never
called from `main`). -/
def retrieve (y : Int) (fs : List (String × String)) (cb : ClientBehavior) :
    RunResult :=
  if (fileNames fs).contains (croppedFilename y) then ⟨fs, [], none⟩
  else
    ⟨(match cb.failure with
      | none => (croppedFilename y, cb.content) :: fs
      | some _ => fs),
     [⟨"efas-historical", croppedRequest y, croppedFilename y⟩],
     cb.failure⟩

/-- Strip leading and trailing whitespace, as `int()` does with its string
argument. -/
def trimWs (cs : List Char) : List Char :=
  ((cs.dropWhile Char.isWhitespace).reverse.dropWhile Char.isWhitespace).reverse

/-- Digits of a Python integer literal after the first: decimal digits with
single underscores allowed between digits. -/
def pyDigits : Nat → List Char → Option Nat
  | acc, [] => some acc
  | acc, '_' :: c :: cs =>
      if c.isDigit then pyDigits (10 * acc + (c.toNat - 48)) cs else none
  | _, ['_'] => none
  | acc, c :: cs =>
      if c.isDigit then pyDigits (10 * acc + (c.toNat - 48)) cs else none

/-- A nonempty run of decimal digits (underscore separators allowed after the
first digit), as accepted by CPython `int()`. -/
def pyNat : List Char → Option Nat
  | [] => none
  | c :: cs => if c.isDigit then pyDigits (c.toNat - 48) cs else none

/-- Models CPython `int(s)` on a string argument (source line 88): strip
surrounding whitespace, then an optional sign followed by a nonempty run of
decimal digits; anything else raises `ValueError`, modelled as `none`. -/
def pythonInt (s : String) : Option Int :=
  match trimWs s.toList with
  | '-' :: rest => (pyNat rest).map (fun n => -(n : Int))
  | '+' :: rest => (pyNat rest).map (fun n => (n : Int))
  | rest => (pyNat rest).map (fun n => (n : Int))

/-- `f"downloading year {y}"` (source line 89). -/
def progressMessage (y : Int) : String :=
  "downloading year " ++ toString y

/-- How an execution of `main` can fail: `sys.argv[1]` out of range
(`IndexError`), `int()` parse failure (`ValueError`), or an exception from
the external client. -/
inductive MainError where
  | argMissing
  | parseError (arg : String)
  | clientError (msg : String)
  deriving DecidableEq, Repr

/-- Observable outcome of `main`: lines printed, filesystem afterwards,
delegated calls made, and the uncaught exception if any. -/
structure MainResult where
  printed : List String
  files : List (String × String)
  calls : List Call
  error : Option MainError
  deriving DecidableEq, Repr

/-- `main()` (source lines 87-96): parse `sys.argv[1]` as an integer, print
the progress message, call `retrievefull` (the `retrieve(y)` call is
commented out).  `argv` includes the program name at index 0. -/
def mainRun (argv : List String) (fs : List (String × String))
    (cb : ClientBehavior) : MainResult :=
  match argv.get? 1 with
  | none => ⟨[], fs, [], some MainError.argMissing⟩
  | some a =>
    match pythonInt a with
    | none => ⟨[], fs, [], some (MainError.parseError a)⟩
    | some y =>
      let r := retrievefull y fs cb
      ⟨[progressMessage y], r.files, r.calls, r.error.map MainError.clientError⟩

lemma retrievefull_calls_eq (y : Int) (fs : List (String × String))
    (cb : ClientBehavior) :
    (retrievefull y fs cb).calls =
      if (fileNames fs).contains (fullFilename y) then []
      else [⟨"efas-historical", fullRequest y, fullFilename y⟩] := by
  unfold retrievefull
  split <;> rfl

lemma retrieve_calls_eq (y : Int) (fs : List (String × String))
    (cb : ClientBehavior) :
    (retrieve y fs cb).calls =
      if (fileNames fs).contains (croppedFilename y) then []
      else [⟨"efas-historical", croppedRequest y, croppedFilename y⟩] := by
  unfold retrieve
  split <;> rfl

/-- C1: every request dictionary that `retrievefull(Y)` passes to the client
has `hyear = str(Y)`, the fixed 12-month list, the fixed 31-day list and the
fixed 4-time list. -/
theorem retrievefull_request_selectors (y : Int) (fs : List (String × String))
    (cb : ClientBehavior) (c : Call) (hc : c ∈ (retrievefull y fs cb).calls) :
    dictLookup c.request "hyear" = some (Value.str (toString y)) ∧
    dictLookup c.request "hmonth" = some (Value.strList
      ["01", "02", "03", "04", "05", "06", "07", "08", "09", "10", "11", "12"]) ∧
    dictLookup c.request "hday" = some (Value.strList
      ["01", "02", "03", "04", "05", "06", "07", "08", "09", "10", "11", "12",
       "13", "14", "15", "16", "17", "18", "19", "20", "21", "22", "23", "24",
       "25", "26", "27", "28", "29", "30", "31"]) ∧
    dictLookup c.request "time" = some (Value.strList
      ["00:00", "06:00", "12:00", "18:00"]) := by
  rw [retrievefull_calls_eq] at hc
  split at hc
  · exact absurd hc (List.not_mem_nil c)
  · rw [List.mem_singleton] at hc
    subst hc
    exact ⟨rfl, rfl, rfl, rfl⟩

theorem retrievefull_request_selectors_witness :
    dictLookup (fullRequest 2019) "hyear" = some (Value.str "2019") ∧
    dictLookup (fullRequest 2019) "hmonth" = some (Value.strList
      ["01", "02", "03", "04", "05", "06", "07", "08", "09", "10", "11", "12"]) ∧
    dictLookup (fullRequest 2019) "hday" = some (Value.strList
      ["01", "02", "03", "04", "05", "06", "07", "08", "09", "10", "11", "12",
       "13", "14", "15", "16", "17", "18", "19", "20", "21", "22", "23", "24",
       "25", "26", "27", "28", "29", "30", "31"]) ∧
    dictLookup (fullRequest 2019) "time" = some (Value.strList
      ["00:00", "06:00", "12:00", "18:00"]) :=
  retrievefull_request_selectors 2019 [] ⟨none, ""⟩
    ⟨"efas-historical", fullRequest 2019, fullFilename 2019⟩ (by decide)

/-- C2: if `discharge_<Y>_full.nc.zip` is already on disk, `retrievefull(Y)`
makes no delegated call and leaves the filesystem unchanged; the skip decision
depends only on the file names present, never on any file's content. -/
theorem retrievefull_skip_if_exists (y : Int) (fs fs' : List (String × String))
    (cb cb' : ClientBehavior)
    (h : (fileNames fs).contains (fullFilename y) = true)
    (hn : fileNames fs' = fileNames fs) :
    retrievefull y fs cb = ⟨fs, [], none⟩ ∧
    (retrievefull y fs' cb').calls = [] := by
  have hm : fullFilename y ∈ fileNames fs := by simpa using h
  constructor
  · simp [retrievefull, hm]
  · simp [retrievefull, hn, hm]

theorem retrievefull_skip_if_exists_witness :
    retrievefull 2019 [("discharge_2019_full.nc.zip", "corrupt-half-write")]
        ⟨none, "x"⟩ =
      ⟨[("discharge_2019_full.nc.zip", "corrupt-half-write")], [], none⟩ ∧
    (retrievefull 2019 [("discharge_2019_full.nc.zip", "")]
        ⟨some "boom", "y"⟩).calls = [] :=
  retrievefull_skip_if_exists 2019
    [("discharge_2019_full.nc.zip", "corrupt-half-write")]
    [("discharge_2019_full.nc.zip", "")] ⟨none, "x"⟩ ⟨some "boom", "y"⟩
    (by decide) (by decide)

/-- C3: if `discharge_<Y>_full.nc.zip` is absent, `retrievefull(Y)` makes
exactly one delegated call, with dataset `efas-historical` and that filename
as destination. -/
theorem retrievefull_single_call (y : Int) (fs : List (String × String))
    (cb : ClientBehavior)
    (h : (fileNames fs).contains (fullFilename y) = false) :
    (retrievefull y fs cb).calls =
      [⟨"efas-historical", fullRequest y,
        "discharge_" ++ toString y ++ "_full.nc.zip"⟩] := by
  have hm : ("discharge_" ++ toString y ++ "_full.nc.zip") ∉ fileNames fs := by
    simpa [fullFilename] using h
  simp [retrievefull, fullFilename, hm]

theorem retrievefull_single_call_witness :
    (retrievefull 2019 [] ⟨none, "data"⟩).calls =
      [⟨"efas-historical", fullRequest 2019, "discharge_2019_full.nc.zip"⟩] :=
  retrievefull_single_call 2019 [] ⟨none, "data"⟩ (by decide)

/-- C4: invoked as `prog 2019`, the entry point prints a message containing
`2019` and makes the full-retrieval call; moreover every call any invocation
of the entry point ever makes is a full-path call and never a cropped-path
call. -/
theorem main_invokes_full_path (argv0 : String) (fs : List (String × String))
    (cb : ClientBehavior) :
    (∃ m ∈ (mainRun [argv0, "2019"] fs cb).printed,
        ∃ l r, m.toList = l ++ "2019".toList ++ r) ∧
    (mainRun [argv0, "2019"] [] cb).calls =
      [⟨"efas-historical", fullRequest 2019, fullFilename 2019⟩] ∧
    (∀ (argv : List String) (fs' : List (String × String)) (cb' : ClientBehavior)
        (c : Call), c ∈ (mainRun argv fs' cb').calls →
      (∃ y : Int, c = ⟨"efas-historical", fullRequest y, fullFilename y⟩) ∧
      ∀ y' : Int, c ≠ ⟨"efas-historical", croppedRequest y', croppedFilename y'⟩) := by
  have hp : pythonInt "2019" = some 2019 := by decide
  have extract : ∀ (y : Int) (fs₀ : List (String × String)) (cb₀ : ClientBehavior)
      (c₀ : Call), c₀ ∈ (retrievefull y fs₀ cb₀).calls →
      c₀ = ⟨"efas-historical", fullRequest y, fullFilename y⟩ := by
    intro y fs₀ cb₀ c₀ h₀
    rw [retrievefull_calls_eq] at h₀
    split at h₀
    · exact absurd h₀ (List.not_mem_nil c₀)
    · rwa [List.mem_singleton] at h₀
  refine ⟨?_, ?_, ?_⟩
  · refine ⟨progressMessage 2019, ?_, "downloading year ".toList, [], by decide⟩
    simp [mainRun, hp]
  · simp [mainRun, hp, retrievefull_calls_eq, fileNames]
  · intro argv fs' cb' c hc
    simp only [mainRun] at hc
    split at hc
    · exact absurd hc (List.not_mem_nil c)
    · split at hc
      · exact absurd hc (List.not_mem_nil c)
      · rename_i y hpy
        have hcall := extract y fs' cb' c hc
        subst hcall
        refine ⟨⟨y, rfl⟩, ?_⟩
        intro y' heq
        have hreq : fullRequest y = croppedRequest y' := congrArg Call.request heq
        have harea : (none : Option Value) = some (Value.intList [54, 14, 49, 20]) := by
          calc (none : Option Value)
              = dictLookup (fullRequest y) "area" := rfl
            _ = dictLookup (croppedRequest y') "area" := by rw [hreq]
            _ = some (Value.intList [54, 14, 49, 20]) := rfl
        exact Option.noConfusion harea

theorem main_invokes_full_path_witness :
    (mainRun ["prog", "2019"] [] ⟨none, "payload"⟩).calls =
      [⟨"efas-historical", fullRequest 2019, fullFilename 2019⟩] ∧
    (⟨"efas-historical", fullRequest 2019, fullFilename 2019⟩ : Call) ≠
      ⟨"efas-historical", croppedRequest 2019, croppedFilename 2019⟩ :=
  ⟨(main_invokes_full_path "prog" [] ⟨none, "payload"⟩).2.1,
   ((main_invokes_full_path "prog" [] ⟨none, "payload"⟩).2.2 ["prog", "2019"] []
      ⟨none, "payload"⟩ ⟨"efas-historical", fullRequest 2019, fullFilename 2019⟩
      (by decide)).2 2019⟩

/-- C5: with an argument that does not parse as an integer, `main` fails with
a parse error having printed nothing, made no delegated call, and left the
filesystem unchanged. -/
theorem main_parse_failure_no_call (argv0 s : String)
    (fs : List (String × String)) (cb : ClientBehavior)
    (h : pythonInt s = none) :
    mainRun [argv0, s] fs cb = ⟨[], fs, [], some (MainError.parseError s)⟩ := by
  simp [mainRun, h]

theorem main_parse_failure_no_call_witness :
    pythonInt "abc" = none ∧
    mainRun ["prog", "abc"] [] ⟨none, "x"⟩ =
      ⟨[], [], [], some (MainError.parseError "abc")⟩ :=
  ⟨by decide, main_parse_failure_no_call "prog" "abc" [] ⟨none, "x"⟩ (by decide)⟩

/-- C6: the request dictionary is a pure, deterministic function of the year:
whatever the filesystem and client behaviour, any call made carries exactly
`fullRequest y`, so two invocations with the same year pass equal
dictionaries; the builder itself is a total function with no I/O and no
error path. -/
theorem request_builder_pure (y y' : Int) (fs fs' : List (String × String))
    (cb cb' : ClientBehavior) (c c' : Call) (hy : y = y')
    (hc : c ∈ (retrievefull y fs cb).calls)
    (hc' : c' ∈ (retrievefull y' fs' cb').calls) :
    c.request = fullRequest y ∧ c.request = c'.request := by
  subst hy
  have extract : ∀ (fs₀ : List (String × String)) (cb₀ : ClientBehavior)
      (c₀ : Call), c₀ ∈ (retrievefull y fs₀ cb₀).calls →
      c₀.request = fullRequest y := by
    intro fs₀ cb₀ c₀ h₀
    rw [retrievefull_calls_eq] at h₀
    split at h₀
    · exact absurd h₀ (List.not_mem_nil c₀)
    · rw [List.mem_singleton] at h₀
      subst h₀
      rfl
  exact ⟨extract fs cb c hc,
    (extract fs cb c hc).trans (extract fs' cb' c' hc').symm⟩

theorem request_builder_pure_witness :
    (⟨"efas-historical", fullRequest 5, fullFilename 5⟩ : Call).request =
      fullRequest 5 ∧
    (⟨"efas-historical", fullRequest 5, fullFilename 5⟩ : Call).request =
      (⟨"efas-historical", fullRequest 5, fullFilename 5⟩ : Call).request :=
  request_builder_pure 5 5 [] [("other.txt", "z")] ⟨none, "a"⟩ ⟨some "err", "b"⟩
    ⟨"efas-historical", fullRequest 5, fullFilename 5⟩
    ⟨"efas-historical", fullRequest 5, fullFilename 5⟩
    rfl (by decide) (by decide)

/-- C7: when the file is absent and the client raises, the exception
propagates uncaught out of `retrievefull` (and, through `main`, out of the
entry point); exactly one call is made, so there is no local retry or
fallback. -/
theorem client_error_propagates (y : Int) (fs : List (String × String))
    (cb : ClientBehavior) (e argv0 s : String)
    (h : (fileNames fs).contains (fullFilename y) = false)
    (he : cb.failure = some e)
    (hs : pythonInt s = some y) :
    (retrievefull y fs cb).error = some e ∧
    (retrievefull y fs cb).calls.length = 1 ∧
    (mainRun [argv0, s] fs cb).error = some (MainError.clientError e) := by
  have hm : fullFilename y ∉ fileNames fs := by simpa using h
  refine ⟨?_, ?_, ?_⟩
  · simp [retrievefull, hm, he]
  · simp [retrievefull_calls_eq, hm]
  · simp [mainRun, hs, retrievefull, hm, he]

theorem client_error_propagates_witness :
    (retrievefull 5 [] ⟨some "HTTP 403", "x"⟩).error = some "HTTP 403" ∧
    (retrievefull 5 [] ⟨some "HTTP 403", "x"⟩).calls.length = 1 ∧
    (mainRun ["prog", "5"] [] ⟨some "HTTP 403", "x"⟩).error =
      some (MainError.clientError "HTTP 403") :=
  client_error_propagates 5 [] ⟨some "HTTP 403", "x"⟩ "HTTP 403" "prog" "5"
    (by decide) rfl (by decide)

/-- C8: every call of the full path uses destination
`discharge_<year>_full.nc.zip` and every call of the (disabled) cropped path
uses `discharge_<year>.nc.zip`, each derived deterministically from the
year. -/
theorem filenames_from_year (y : Int) (fs : List (String × String))
    (cb : ClientBehavior) :
    (∀ c ∈ (retrievefull y fs cb).calls,
        c.filename = "discharge_" ++ toString y ++ "_full.nc.zip") ∧
    (∀ c ∈ (retrieve y fs cb).calls,
        c.filename = "discharge_" ++ toString y ++ ".nc.zip") := by
  refine ⟨?_, ?_⟩
  · intro c hc
    rw [retrievefull_calls_eq] at hc
    split at hc
    · exact absurd hc (List.not_mem_nil c)
    · rw [List.mem_singleton] at hc
      subst hc
      rfl
  · intro c hc
    rw [retrieve_calls_eq] at hc
    split at hc
    · exact absurd hc (List.not_mem_nil c)
    · rw [List.mem_singleton] at hc
      subst hc
      rfl

theorem filenames_from_year_witness :
    (⟨"efas-historical", fullRequest 2019, fullFilename 2019⟩ : Call).filename =
      "discharge_2019_full.nc.zip" ∧
    (⟨"efas-historical", croppedRequest 2019, croppedFilename 2019⟩ : Call).filename =
      "discharge_2019.nc.zip" :=
  ⟨(filenames_from_year 2019 [] ⟨none, "d"⟩).1
      ⟨"efas-historical", fullRequest 2019, fullFilename 2019⟩ (by decide),
   (filenames_from_year 2019 [] ⟨none, "d"⟩).2
      ⟨"efas-historical", croppedRequest 2019, croppedFilename 2019⟩ (by decide)⟩

/-- C9: the cropped request dictionary is the full request dictionary
extended with exactly one additional key `area` mapped to the bounding box
`[54, 14, 49, 20]`; on every other key the two dictionaries agree. -/
theorem cropped_request_adds_area (y : Int) (k : String) (hk : k ≠ "area") :
    dictLookup (croppedRequest y) k = dictLookup (fullRequest y) k ∧
    dictLookup (croppedRequest y) "area" = some (Value.intList [54, 14, 49, 20]) ∧
    dictLookup (fullRequest y) "area" = none := by
  refine ⟨?_, rfl, rfl⟩
  rcases eq_or_ne k "format" with h | h0
  · subst h; rfl
  rcases eq_or_ne k "system_version" with h | h1
  · subst h; rfl
  rcases eq_or_ne k "variable" with h | h2
  · subst h; rfl
  rcases eq_or_ne k "model_levels" with h | h3
  · subst h; rfl
  rcases eq_or_ne k "hyear" with h | h4
  · subst h; rfl
  rcases eq_or_ne k "hmonth" with h | h5
  · subst h; rfl
  rcases eq_or_ne k "hday" with h | h6
  · subst h; rfl
  rcases eq_or_ne k "time" with h | h7
  · subst h; rfl
  simp [dictLookup, croppedRequest, fullRequest, h0, h1, h2, h3, h4, h5, h6, h7, hk]

theorem cropped_request_adds_area_witness :
    dictLookup (croppedRequest 2019) "hyear" = dictLookup (fullRequest 2019) "hyear" ∧
    dictLookup (croppedRequest 2019) "area" = some (Value.intList [54, 14, 49, 20]) ∧
    dictLookup (fullRequest 2019) "area" = none :=
  cropped_request_adds_area 2019 "hyear" (by decide)

/-- C10: the argument is parsed before the progress message is printed, so a
missing or unparsable argument fails with nothing printed; when parsing
succeeds the message is printed before the retrieval call, hence it appears
even when the client then fails. -/
theorem parse_precedes_print (argv0 s : String) (y : Int)
    (fs : List (String × String)) (cb : ClientBehavior) :
    (pythonInt s = none → (mainRun [argv0, s] fs cb).printed = []) ∧
    (mainRun [argv0] fs cb).printed = [] ∧
    (pythonInt s = some y →
      (mainRun [argv0, s] fs cb).printed = [progressMessage y]) := by
  refine ⟨?_, ?_, ?_⟩
  · intro h
    simp [mainRun, h]
  · simp [mainRun]
  · intro h
    simp [mainRun, h]

theorem parse_precedes_print_witness :
    (mainRun ["prog", "zzz"] [] ⟨some "boom", ""⟩).printed = [] ∧
    (mainRun ["prog"] [] ⟨some "boom", ""⟩).printed = [] ∧
    (mainRun ["prog", "2020"] [] ⟨some "boom", ""⟩).printed =
      [progressMessage 2020] :=
  ⟨(parse_precedes_print "prog" "zzz" 2020 [] ⟨some "boom", ""⟩).1 (by decide),
   (parse_precedes_print "prog" "zzz" 2020 [] ⟨some "boom", ""⟩).2.1,
   (parse_precedes_print "prog" "2020" 2020 [] ⟨some "boom", ""⟩).2.2 (by decide)⟩

example : pythonInt "2019" = some 2019 := by decide
example : pythonInt "abc" = none := by decide
example : pythonInt " -42 " = some (-42) := by decide
example : pythonInt "1_0" = some 10 := by decide
example : pythonInt "1_" = none := by decide
example : fullFilename 2019 = "discharge_2019_full.nc.zip" := by decide
example : dictLookup (fullRequest 7) "hyear" = some (Value.str "7") := by decide
example :
    (retrievefull 2019 [("discharge_2019_full.nc.zip", "junk")] ⟨none, "x"⟩).calls
      = [] := by decide
